import Mathlib

/-!
Verification of the incremental email-ingestion pipeline in
`src/email_sources/gmail_connector.py` (class `GmailConnector`).

Python strings are modelled as `String` when they are only compared or
concatenated, and as `List Nat` (their UTF-8 bytes) when the code decodes
transport encodings into text.  Fallible calls to external services
(Snowflake, the Gmail API, S3) are modelled by explicit outcome fields in an
environment record, and the observable side effects of a run (queries issued,
objects uploaded, metric rows inserted) are threaded through a state record.
-/

namespace GmailConnector

/-! ### Base64url decoding, as performed by `decode_data`

`decode_data(data)` runs `base64.urlsafe_b64decode(data + '===').decode('utf-8')`.
Python's `a2b_base64` (non-strict) discards characters outside the base64
alphabet (including the appended padding), rejects inputs whose number of data
characters is `1 (mod 4)`, and otherwise decodes 6-bit groups; `.decode('utf-8')`
then rejects byte sequences that are not valid UTF-8.  `urlsafe_b64decode`
first maps `-`/`_` to `+`/`/`, so both alphabets are accepted. -/

/-- Value of one base64 character (standard and urlsafe alphabets merged,
as after `urlsafe_b64decode`'s translation step); `none` for characters the
lenient decoder discards, including `=`. -/
def b64Val (c : Char) : Option Nat :=
  if 'A' ≤ c ∧ c ≤ 'Z' then some (c.toNat - 'A'.toNat)
  else if 'a' ≤ c ∧ c ≤ 'z' then some (c.toNat - 'a'.toNat + 26)
  else if '0' ≤ c ∧ c ≤ '9' then some (c.toNat - '0'.toNat + 52)
  else if c = '+' ∨ c = '-' then some 62
  else if c = '/' ∨ c = '_' then some 63
  else none

/-- Reassemble bytes from the list of 6-bit values (2 leftover sextets give one
byte, 3 give two, exactly as `a2b_base64` does after padding normalisation). -/
def decodeSextets : List Nat → List Nat
  | s1 :: s2 :: s3 :: s4 :: rest =>
      (s1 * 4 + s2 / 16) :: ((s2 % 16) * 16 + s3 / 4) :: ((s3 % 4) * 64 + s4) ::
        decodeSextets rest
  | [s1, s2] => [s1 * 4 + s2 / 16]
  | [s1, s2, s3] => [s1 * 4 + s2 / 16, (s2 % 16) * 16 + s3 / 4]
  | _ => []

/-- UTF-8 validity of a byte sequence: `bytes.decode('utf-8')` succeeds exactly
on these (RFC 3629 table: no overlong forms, no surrogates, max U+10FFFF). -/
def isValidUtf8 : List Nat → Bool
  | [] => true
  | b :: rest =>
    if b < 0x80 then isValidUtf8 rest
    else if 0xC2 ≤ b ∧ b ≤ 0xDF then
      match rest with
      | c1 :: r => decide (0x80 ≤ c1 ∧ c1 ≤ 0xBF) && isValidUtf8 r
      | _ => false
    else if 0xE0 ≤ b ∧ b ≤ 0xEF then
      match rest with
      | c1 :: c2 :: r =>
          (if b = 0xE0 then decide (0xA0 ≤ c1 ∧ c1 ≤ 0xBF)
           else if b = 0xED then decide (0x80 ≤ c1 ∧ c1 ≤ 0x9F)
           else decide (0x80 ≤ c1 ∧ c1 ≤ 0xBF)) &&
          decide (0x80 ≤ c2 ∧ c2 ≤ 0xBF) && isValidUtf8 r
      | _ => false
    else if 0xF0 ≤ b ∧ b ≤ 0xF4 then
      match rest with
      | c1 :: c2 :: c3 :: r =>
          (if b = 0xF0 then decide (0x90 ≤ c1 ∧ c1 ≤ 0xBF)
           else if b = 0xF4 then decide (0x80 ≤ c1 ∧ c1 ≤ 0x8F)
           else decide (0x80 ≤ c1 ∧ c1 ≤ 0xBF)) &&
          decide (0x80 ≤ c2 ∧ c2 ≤ 0xBF) &&
          decide (0x80 ≤ c3 ∧ c3 ≤ 0xBF) && isValidUtf8 r
      | _ => false
    else false

/-- `decode_data`: base64url-decode `data + '==='` then UTF-8-decode.
`none` models the exceptions (`binascii.Error` on a data-character count of
`1 (mod 4)`, `UnicodeDecodeError` on invalid UTF-8); the result is the byte
list of the decoded Python string. -/
def decode_data (data : String) : Option (List Nat) :=
  let vals := (data ++ "===").data.filterMap b64Val
  if vals.length % 4 = 1 then none
  else
    let bytes := decodeSextets vals
    if isValidUtf8 bytes then some bytes else none

/-! ### Gmail API payload trees and `extract_body_content` -/

/-- A Gmail API payload dict as `extract_body_content` inspects it:
`single` when the `'parts'` key is absent, `multi` when present (possibly with
an empty list).  `bodyData` is `payload['body']['data']` when both keys exist. -/
inductive Payload where
  | single (mimeType : Option String) (bodyData : Option String) : Payload
  | multi (mimeType : Option String) (bodyData : Option String)
      (parts : List Payload) : Payload

/-- UTF-8 bytes of the sentinel string `"No readable content found"`. -/
def noReadableContent : List Nat :=
  [78, 111, 32, 114, 101, 97, 100, 97, 98, 108, 101, 32, 99, 111, 110, 116,
   101, 110, 116, 32, 102, 111, 117, 110, 100]

/-- UTF-8 bytes of the sentinel string `"Content extraction failed"`. -/
def contentExtractionFailed : List Nat :=
  [67, 111, 110, 116, 101, 110, 116, 32, 101, 120, 116, 114, 97, 99, 116,
   105, 111, 110, 32, 102, 97, 105, 108, 101, 100]

/-- `part.get('mimeType')`. -/
def mimeTypeOf : Payload → Option String
  | .single mt _ => mt
  | .multi mt _ _ => mt

/-- `'data' in part.get('body', {})` / the data itself. -/
def bodyDataOf : Payload → Option String
  | .single _ bd => bd
  | .multi _ bd _ => bd

/-- `'parts' in part`. -/
def hasParts : Payload → Bool
  | .single _ _ => false
  | .multi _ _ _ => true

mutual

/-- The body of `extract_body_content`'s `try` block: `.error ()` is an
exception escaping the current frame (only `decode_data` raises there).
On a `'parts'` key it scans the part list; otherwise, when
`payload.get('body', {}).get('data')` is truthy (present and non-empty) it
decodes it — with no mimeType check — else it returns the sentinel. -/
def extractGo : Payload → Except Unit (List Nat)
  | .single _ bodyData =>
      match bodyData with
      | some d =>
          if d = "" then .ok noReadableContent
          else
            match decode_data d with
            | some bs => .ok bs
            | none => .error ()
      | none => .ok noReadableContent
  | .multi _ _ parts =>
      match extractGoList parts with
      | .error _ => .error ()
      | .ok (some content) => .ok content
      | .ok none => .ok noReadableContent
termination_by structural p => p

/-- The `for part in payload['parts']` loop: a `text/plain` part with a
`'data'` key is decoded and returned (truthy or not); otherwise a part with
nested `'parts'` is recursed into via the full `extract_body_content` — whose
catch-all handler is inlined here as the `match` on `extractGo part` — and its
result returned if truthy; all other parts are skipped.  `.ok none` means the
loop fell through. -/
def extractGoList : List Payload → Except Unit (Option (List Nat))
  | [] => .ok none
  | part :: rest =>
      if mimeTypeOf part = some "text/plain" ∧ (bodyDataOf part).isSome then
        match decode_data ((bodyDataOf part).getD "") with
        | some bs => .ok (some bs)
        | none => .error ()
      else if hasParts part then
        let content :=
          match extractGo part with
          | .ok bs => bs
          | .error _ => contentExtractionFailed
        if content = [] then extractGoList rest else .ok (some content)
      else extractGoList rest
termination_by structural l => l

end

/-- `extract_body_content(payload)`: the `try` body with its
`except`-all handler, which degrades any exception to the
`"Content extraction failed"` sentinel. -/
def extract_body_content (p : Payload) : List Nat :=
  match extractGo p with
  | .ok bs => bs
  | .error _ => contentExtractionFailed

mutual

/-- Whether some part of the tree (the root included) declares content type
`text/plain`. -/
def hasPlainPart : Payload → Bool
  | .single mt _ => mt = some "text/plain"
  | .multi mt _ parts => mt = some "text/plain" || hasPlainPartList parts
termination_by structural p => p

/-- `hasPlainPart` over a part list. -/
def hasPlainPartList : List Payload → Bool
  | [] => false
  | p :: rest => hasPlainPart p || hasPlainPartList rest
termination_by structural l => l

end

/-! ### Base64url encoding (specification side)

The spec's round-trip property compares the decoder against the base64url
encoding of the original text, with the padding stripped as the Gmail API
does; the encoder is defined here from that description. -/

/-- Base64url alphabet character of a 6-bit value. -/
def sextetChar (n : Nat) : Char :=
  if n < 26 then Char.ofNat ('A'.toNat + n)
  else if n < 52 then Char.ofNat ('a'.toNat + (n - 26))
  else if n < 62 then Char.ofNat ('0'.toNat + (n - 52))
  else if n = 62 then '-'
  else '_'

/-- The 6-bit groups of the base64 encoding of a byte list (no padding: a
final group of 1 byte yields 2 sextets, of 2 bytes yields 3). -/
def encodeSextets : List Nat → List Nat
  | [] => []
  | [a] => [a / 4, a % 4 * 16]
  | [a, b] => [a / 4, a % 4 * 16 + b / 16, b % 16 * 4]
  | a :: b :: c :: rest =>
      a / 4 :: (a % 4 * 16 + b / 16) :: (b % 16 * 4 + c / 64) :: c % 64 ::
        encodeSextets rest

/-- Base64url encoding of a byte list with the padding stripped. -/
def b64urlEncode (bs : List Nat) : String :=
  String.mk ((encodeSextets bs).map sextetChar)

/-! ### Timestamps and `strftime('%Y/%m/%d')`

`email_date` values and `datetime.now()` are modelled at day granularity as a
count of days since 1970-01-01 (the date part is all `strftime('%Y/%m/%d')`
reads, and `- timedelta(days=7)` shifts the day count by 7). -/

/-- Proleptic-Gregorian civil date `(year, month, day)` of a day number
(days since 1970-01-01), for day numbers in the supported era. -/
def civilOfDays (days : Nat) : Nat × Nat × Nat :=
  let z := days + 719468
  let era := z / 146097
  let doe := z % 146097
  let yoe := (doe - doe / 1460 + doe / 36524 - doe / 146096) / 365
  let y := yoe + era * 400
  let doy := doe - (365 * yoe + yoe / 4 - yoe / 100)
  let mp := (5 * doy + 2) / 153
  let d := doy - (153 * mp + 2) / 5 + 1
  let m := if mp < 10 then mp + 3 else mp - 9
  (if m ≤ 2 then y + 1 else y, m, d)

/-- Zero-padded 2-digit field of `strftime`. -/
def pad2 (n : Nat) : String :=
  if n < 10 then "0" ++ toString n else toString n

/-- Zero-padded 4-digit year field of `strftime`. -/
def pad4 (n : Nat) : String :=
  if n < 10 then "000" ++ toString n
  else if n < 100 then "00" ++ toString n
  else if n < 1000 then "0" ++ toString n
  else toString n

/-- `timestamp.strftime('%Y/%m/%d')` on a day number. -/
def fmtYMD (days : Nat) : String :=
  let c := civilOfDays days
  pad4 c.1 ++ "/" ++ pad2 c.2.1 ++ "/" ++ pad2 c.2.2

/-! ### External-world model for one ingestion run -/

/-- The Snowflake store as seen by the watermark query:
whether `SELECT MAX(email_date) FROM PROCESSED_EMAILS` can be executed, and
its value (`none` when the table holds no non-NULL `email_date`). -/
structure SnowStore where
  available : Bool
  maxEmailDate : Option Nat
deriving DecidableEq, Repr

/-- One raw message of the Gmail list response: its id, whether the follow-up
`messages().get` call succeeds, and the full-format fields `get_email_details`
reads from it. -/
structure RawMsg where
  msgId : String
  getOk : Bool
  payload : Payload
  headers : List (String × String)
  internalDate : Option String
  threadId : Option String

/-- Behaviour of the external collaborators during one run, plus the clock
readings the code takes. -/
structure Env where
  domain : String
  now : Nat
  nowIso : String
  nowStamp : String
  elapsed : Nat
  maxEmailsPerRun : Nat
  listOk : Bool
  listResult : List RawMsg
  uploadOk : Bool
  metricsOk : Bool

/-- A normalized email record as assembled by `get_email_details` (its
`email_data` dict, with the body content that the payload wrapper carries). -/
structure EmailData where
  emailType : String
  headers : List (String × String)
  body : List Nat
  internalDate : Option String
  threadId : Option String
  messageId : String
  fetchedTimestamp : String
deriving DecidableEq, Repr

/-- An object created in the S3 bucket by `put_object`, with the metadata
attached to it. -/
structure S3Object where
  key : String
  emails : List EmailData
  emailCount : Nat
  batchName : String
deriving DecidableEq, Repr

/-- Observable effects of a run: the Snowflake store (never written by this
code), the `REALTIME_METRICS` rows inserted, the S3 objects created, the Gmail
search queries issued, and call counters for the Sink (`upload_emails_to_s3`
invocations) and for actual `put_object` attempts. -/
structure RunState where
  store : SnowStore
  metrics : List (String × Nat)
  s3objects : List S3Object
  queriesIssued : List String
  uploadCalls : Nat
  s3PutCalls : Nat
deriving Repr

/-- `process_domain_emails`'s result dict: `emails_processed` is absent
(`none`) on the upload-failure path. -/
structure RunResult where
  status : String
  emailsProcessed : Option Nat
  message : String
deriving DecidableEq, Repr

/-! ### The `GmailConnector` methods -/

/-- `get_last_processed_timestamp`: `MAX(email_date)` formatted as
`%Y/%m/%d`; `now - 7 days` when the table is empty; `None` when the query
raises (the `except` branch). -/
def get_last_processed_timestamp (now : Nat) (store : SnowStore) :
    Option String :=
  if store.available then
    match store.maxEmailDate with
    | some d => some (fmtYMD d)
    | none => some (fmtYMD (now - 7))
  else none

/-- Python-dict insertion: an existing key keeps its position and takes the
new value, a new key is appended. -/
def dictInsert (l : List (String × String)) (k v : String) :
    List (String × String) :=
  if l.any (fun p => p.1 = k) then
    l.map (fun p => if p.1 = k then (k, v) else p)
  else l ++ [(k, v)]

/-- The `headers` dict built by `get_email_details`: last value wins for a
repeated name, first-insertion order kept. -/
def collapseHeaders (hs : List (String × String)) : List (String × String) :=
  hs.foldl (fun acc h => dictInsert acc h.1 h.2) []

/-- The `email_data` dict assembled by `get_email_details` from a full-format
message: collapsed headers, extracted body, pass-through identifiers. -/
def mkEmailData (env : Env) (msg : RawMsg) : EmailData :=
  { emailType := "gmail_api",
    headers := collapseHeaders msg.headers,
    body := extract_body_content msg.payload,
    internalDate := msg.internalDate,
    threadId := msg.threadId,
    messageId := msg.msgId,
    fetchedTimestamp := env.nowIso }

/-- `get_email_details(msg_id)`: `None` when the `messages().get` call raises
(caught by its handler); otherwise the assembled `email_data` dict.  Body
extraction cannot raise (it catches its own exceptions), so it never causes
the `None` branch. -/
def get_email_details (env : Env) (msg : RawMsg) : Option EmailData :=
  if msg.getOk then some (mkEmailData env msg) else none

/-- `fetch_emails_from_domain(domain, max_results)`: builds the incremental
query from the watermark (no `after:` clause when the watermark read failed),
issues it, and collects the details of each listed message, skipping those
whose `get` failed.  A raised `list` call is caught by the `except` branches,
which return `[]`. -/
def fetch_emails_from_domain (env : Env) (st : RunState) :
    List EmailData × RunState :=
  let lastProcessed := get_last_processed_timestamp env.now st.store
  let query :=
    match lastProcessed with
    | some ts => "from:" ++ env.domain ++ " after:" ++ ts
    | none => "from:" ++ env.domain
  let st1 := { st with queriesIssued := st.queriesIssued ++ [query] }
  if env.listOk then
    (env.listResult.filterMap (get_email_details env), st1)
  else
    ([], st1)

/-- `domain.replace('.', '_')`. -/
def replaceDots (s : String) : String :=
  String.mk (s.data.map (fun c => if c = '.' then '_' else c))

/-- `upload_emails_to_s3(emails, batch_name)`: `True` immediately on an empty
list; otherwise one `put_object` attempt, `False` when it raises. -/
def upload_emails_to_s3 (env : Env) (emails : List EmailData)
    (batchName : String) (st : RunState) : Bool × RunState :=
  let st0 := { st with uploadCalls := st.uploadCalls + 1 }
  if emails = [] then (true, st0)
  else
    let s3Key := "email-files/gmail-realtime/" ++ batchName ++ "_" ++
      env.nowStamp ++ ".json"
    let st1 := { st0 with s3PutCalls := st0.s3PutCalls + 1 }
    if env.uploadOk then
      (true, { st1 with s3objects := st1.s3objects ++
        [{ key := s3Key, emails := emails, emailCount := emails.length,
           batchName := batchName }] })
    else (false, st1)

/-- `log_processing_metrics`: inserts the two metric rows; a raised insert is
caught and logged only, leaving the run unaffected. -/
def log_processing_metrics (env : Env) (count : Nat) (st : RunState) :
    RunState :=
  if env.metricsOk then
    { st with metrics := st.metrics ++
        [("GMAIL_FETCH_COUNT", count), ("GMAIL_FETCH_LATENCY", env.elapsed)] }
  else st

/-- `process_domain_emails(domain)`: fetch, early success on an empty batch,
upload, error without metrics on upload failure, metrics and success
otherwise. -/
def process_domain_emails (env : Env) (st : RunState) :
    RunResult × RunState :=
  let fetched := fetch_emails_from_domain env st
  let emails := fetched.1
  let st1 := fetched.2
  if emails = [] then
    ({ status := "success", emailsProcessed := some 0,
       message := "No new emails to process" }, st1)
  else
    let batchName := "gmail_" ++ replaceDots env.domain
    let uploaded := upload_emails_to_s3 env emails batchName st1
    if uploaded.1 then
      let st3 := log_processing_metrics env emails.length uploaded.2
      ({ status := "success", emailsProcessed := some emails.length,
         message := "Successfully uploaded " ++ toString emails.length ++
           " emails to S3" }, st3)
    else
      ({ status := "error", emailsProcessed := none,
         message := "Failed to upload emails to S3" }, uploaded.2)

/-! ### Shape predicates on payload trees -/

/-- Whether the root is a single-part payload with truthy inline body data —
the one shape the single-part branch of `extract_body_content` decodes
without any content-type check. -/
def rootInlineData : Payload → Bool
  | .single _ (some d) => d ≠ ""
  | _ => false

/-- Whether the part-list scan of `extract_body_content` skips this part
entirely: not a `text/plain` part carrying data, and without nested parts. -/
def skippedInScan : Payload → Bool
  | .single mt bd => !(mt = some "text/plain" && bd.isSome)
  | .multi _ _ _ => false

/-! ### Concrete sample inputs -/

/-- UTF-8 bytes of `"Hello"`. -/
def helloBytes : List Nat := [72, 101, 108, 108, 111]

/-- A fresh run state over a given Snowflake store: no effects recorded yet. -/
def freshState (store : SnowStore) : RunState :=
  { store := store, metrics := [], s3objects := [], queriesIssued := [],
    uploadCalls := 0, s3PutCalls := 0 }

/-- A store whose `MAX(email_date)` is 2024-01-01 (day 19723 since epoch). -/
def storeJan1 : SnowStore := { available := true, maxEmailDate := some 19723 }

/-- An unreachable store: the watermark query raises. -/
def storeDown : SnowStore := { available := false, maxEmailDate := none }

/-- A message dated 2024-01-02 whose payload has an explicit `text/plain`
part encoding `"Hello"`. -/
def msgJan2 : RawMsg :=
  { msgId := "msg-jan2", getOk := true
    payload := .multi none none
      [.single (some "text/html") (some "PGI+SGk8L2I+"),
       .single (some "text/plain") (some "SGVsbG8")]
    headers := [("From", "alice@example.com"), ("Subject", "Hi")]
    internalDate := some "1704153600000", threadId := some "thread-1" }

/-- A message dated 2024-01-03 with a single-part payload encoding
`"World"`. -/
def msgJan3 : RawMsg :=
  { msgId := "msg-jan3", getOk := true
    payload := .single (some "text/plain") (some "V29ybGQ")
    headers := [("From", "bob@example.com")]
    internalDate := some "1704240000000", threadId := none }

/-- A message whose only `text/plain` part carries undecodable body data
(`"A"` has one data character, which base64 rejects), so its content
extraction fails. -/
def msgBadBody : RawMsg :=
  { msgId := "msg-bad", getOk := true
    payload := .multi none none [.single (some "text/plain") (some "A")]
    headers := [("From", "carol@example.com")]
    internalDate := some "1704326400000", threadId := none }

/-- Baseline healthy environment: watermarked fetch of two messages on
2024-01-03, all external calls succeed. -/
def envTwoMsgs : Env :=
  { domain := "example.com", now := 19725
    nowIso := "2024-01-03T12:00:00+00:00", nowStamp := "20240103_120000"
    elapsed := 2, maxEmailsPerRun := 50
    listOk := true, listResult := [msgJan2, msgJan3]
    uploadOk := true, metricsOk := true }

/-- A run in which the Snowflake watermark query raises and the mailbox has
nothing matching the unbounded fallback query. -/
def envNoNew : Env := { envTwoMsgs with listResult := [] }

/-- A run in which the Gmail `list` call raises. -/
def envListFails : Env := { envTwoMsgs with listOk := false }

/-- A run fetching a 3-message batch whose S3 delivery fails. -/
def envDeliveryFails : Env :=
  { envTwoMsgs with listResult := [msgJan2, msgJan3, msgBadBody]
                    uploadOk := false }

/-- A run fetching exactly the message with undecodable content. -/
def envBadBody : Env := { envTwoMsgs with listResult := [msgBadBody] }

/-! ## Lemmas: the base64url round trip -/

theorem b64Val_sextetChar : ∀ n, n < 64 → b64Val (sextetChar n) = some n := by
  decide

theorem b64Val_padChar : b64Val '=' = none := by decide

theorem encodeSextets_lt : (bs : List Nat) → (∀ b ∈ bs, b < 256) →
    ∀ s ∈ encodeSextets bs, s < 64
  | [], _ => by simp [encodeSextets]
  | [a], h => by
      have ha := h a (by simp)
      simp only [encodeSextets, List.mem_cons, List.not_mem_nil, or_false]
      rintro s (rfl | rfl) <;> omega
  | [a, b], h => by
      have ha := h a (by simp)
      have hb := h b (by simp)
      simp only [encodeSextets, List.mem_cons, List.not_mem_nil, or_false]
      rintro s (rfl | rfl | rfl) <;> omega
  | a :: b :: c :: rest, h => by
      have ha := h a (by simp)
      have hb := h b (by simp)
      have hc := h c (by simp)
      have ih := encodeSextets_lt rest (fun x hx => h x (by simp [hx]))
      simp only [encodeSextets, List.mem_cons]
      rintro s (rfl | rfl | rfl | rfl | hs)
      · omega
      · omega
      · omega
      · omega
      · exact ih s hs

theorem decodeSextets_encodeSextets : (bs : List Nat) → (∀ b ∈ bs, b < 256) →
    decodeSextets (encodeSextets bs) = bs
  | [], _ => rfl
  | [a], h => by
      have ha := h a (by simp)
      simp only [encodeSextets, decodeSextets, List.cons.injEq, and_true]
      omega
  | [a, b], h => by
      have ha := h a (by simp)
      have hb := h b (by simp)
      simp only [encodeSextets, decodeSextets, List.cons.injEq, and_true]
      omega
  | a :: b :: c :: rest, h => by
      have ha := h a (by simp)
      have hb := h b (by simp)
      have hc := h c (by simp)
      have ih := decodeSextets_encodeSextets rest
        (fun x hx => h x (by simp [hx]))
      simp only [encodeSextets, decodeSextets, List.cons.injEq, ih, and_true]
      omega

theorem encodeSextets_length : (bs : List Nat) →
    (encodeSextets bs).length % 4 ≠ 1
  | [] => by simp [encodeSextets]
  | [a] => by simp [encodeSextets]
  | [a, b] => by simp [encodeSextets]
  | a :: b :: c :: rest => by
      have ih := encodeSextets_length rest
      simp only [encodeSextets, List.length_cons]
      omega

theorem filterMap_b64Val_map_sextetChar : (l : List Nat) → (∀ s ∈ l, s < 64) →
    (l.map sextetChar).filterMap b64Val = l
  | [], _ => rfl
  | s :: rest, h => by
      have hs := b64Val_sextetChar s (h s (by simp))
      have ih := filterMap_b64Val_map_sextetChar rest
        (fun x hx => h x (by simp [hx]))
      simp [List.filterMap_cons, hs, ih]

/-- Round trip: decoding the padding-stripped base64url encoding of any byte
sequence that is valid UTF-8 (i.e. of any text) recovers it exactly. -/
theorem decode_data_b64urlEncode (bs : List Nat) (h : ∀ b ∈ bs, b < 256)
    (hv : isValidUtf8 bs = true) : decode_data (b64urlEncode bs) = some bs := by
  have h1 : (b64urlEncode bs ++ "===").data =
      (encodeSextets bs).map sextetChar ++ ['=', '=', '='] := rfl
  have h2 : ((encodeSextets bs).map sextetChar).filterMap b64Val =
      encodeSextets bs :=
    filterMap_b64Val_map_sextetChar _ (encodeSextets_lt bs h)
  have h3 : (['=', '=', '='] : List Char).filterMap b64Val = [] := by decide
  simp only [decode_data, h1, List.filterMap_append, h2, h3, List.append_nil]
  rw [if_neg (encodeSextets_length bs), decodeSextets_encodeSextets bs h, hv]
  simp

/-! ## Lemmas: `extract_body_content` on trees without a `text/plain` part -/

mutual

theorem extractGo_noPlain : (p : Payload) → hasPlainPart p = false →
    rootInlineData p = false → extractGo p = .ok noReadableContent
  | .single _ none, _, _ => by simp [extractGo]
  | .single mt (some d), _, h2 => by
      have hd : d = "" := by
        by_contra hne
        simp [rootInlineData, hne] at h2
      subst hd
      simp [extractGo]
  | .multi mt bd parts, h1, _ => by
      have h1' : hasPlainPartList parts = false := by
        simp only [hasPlainPart, Bool.or_eq_false_iff] at h1
        exact h1.2
      rcases extractGoList_noPlain parts h1' with h | h <;>
        simp [extractGo, h]

theorem extractGoList_noPlain : (l : List Payload) →
    hasPlainPartList l = false →
    extractGoList l = .ok none ∨ extractGoList l = .ok (some noReadableContent)
  | [], _ => Or.inl (by simp [extractGoList])
  | p :: rest, h => by
      have hp : hasPlainPart p = false := by
        simp only [hasPlainPartList, Bool.or_eq_false_iff] at h
        exact h.1
      have hrest : hasPlainPartList rest = false := by
        simp only [hasPlainPartList, Bool.or_eq_false_iff] at h
        exact h.2
      cases p with
      | single mt bd =>
          have hmt : mt ≠ some "text/plain" := by
            simpa [hasPlainPart] using hp
          have hstep : extractGoList (Payload.single mt bd :: rest) =
              extractGoList rest := by
            simp only [extractGoList, mimeTypeOf, bodyDataOf, hasParts]
            rw [if_neg (fun hc => hmt hc.1)]
            simp
          rw [hstep]
          exact extractGoList_noPlain rest hrest
      | multi mt bd ps =>
          have hmt : mt ≠ some "text/plain" := by
            simp only [hasPlainPart, Bool.or_eq_false_iff,
              decide_eq_false_iff_not] at hp
            exact hp.1
          have hgo : extractGo (.multi mt bd ps) = .ok noReadableContent :=
            extractGo_noPlain (.multi mt bd ps) hp rfl
          refine Or.inr ?_
          simp only [extractGoList, mimeTypeOf, bodyDataOf, hasParts]
          rw [if_neg (fun hc => hmt hc.1)]
          simp [hgo, noReadableContent]

end

/-! ## Lemmas: the part-list scan -/

/-- Parts that the scan skips (single parts that are not `text/plain` with
data) do not affect the result of the rest of the scan. -/
theorem extractGoList_append_skipped : (pre : List Payload) →
    (∀ p ∈ pre, skippedInScan p = true) → (l : List Payload) →
    extractGoList (pre ++ l) = extractGoList l
  | [], _, _ => by rw [List.nil_append]
  | p :: rest, h, l => by
      have hp := h p (by simp)
      cases p with
      | single mt bd =>
          have hcond : ¬(mimeTypeOf (Payload.single mt bd) = some "text/plain" ∧
              (bodyDataOf (Payload.single mt bd)).isSome) := by
            simp only [skippedInScan, Bool.not_eq_eq_eq_not, Bool.not_true,
              Bool.and_eq_false_iff, decide_eq_false_iff_not] at hp
            simp only [mimeTypeOf, bodyDataOf]
            rintro ⟨h1, h2⟩
            rcases hp with h' | h'
            · exact h' h1
            · simp [h'] at h2
          have hstep : extractGoList (Payload.single mt bd :: (rest ++ l)) =
              extractGoList (rest ++ l) := by
            simp only [extractGoList, hasParts]
            rw [if_neg hcond]
            simp
          rw [List.cons_append, hstep]
          exact extractGoList_append_skipped rest
            (fun q hq => h q (by simp [hq])) l
      | multi _ _ _ => simp [skippedInScan] at hp

/-! ## Lemmas: pipeline state bookkeeping -/

theorem fetch_preserves (env : Env) (st : RunState) :
    (fetch_emails_from_domain env st).2.store = st.store ∧
    (fetch_emails_from_domain env st).2.metrics = st.metrics ∧
    (fetch_emails_from_domain env st).2.s3objects = st.s3objects ∧
    (fetch_emails_from_domain env st).2.uploadCalls = st.uploadCalls ∧
    (fetch_emails_from_domain env st).2.s3PutCalls = st.s3PutCalls := by
  unfold fetch_emails_from_domain
  split <;> exact ⟨rfl, rfl, rfl, rfl, rfl⟩

theorem fetch_queriesIssued (env : Env) (st : RunState) :
    (fetch_emails_from_domain env st).2.queriesIssued =
      st.queriesIssued ++
        [match get_last_processed_timestamp env.now st.store with
         | some ts => "from:" ++ env.domain ++ " after:" ++ ts
         | none => "from:" ++ env.domain] := by
  unfold fetch_emails_from_domain
  split <;> rfl

theorem upload_preserves (env : Env) (emails : List EmailData)
    (name : String) (st : RunState) :
    (upload_emails_to_s3 env emails name st).2.store = st.store ∧
    (upload_emails_to_s3 env emails name st).2.metrics = st.metrics ∧
    (upload_emails_to_s3 env emails name st).2.queriesIssued =
      st.queriesIssued := by
  unfold upload_emails_to_s3
  split
  · exact ⟨rfl, rfl, rfl⟩
  · split <;> exact ⟨rfl, rfl, rfl⟩

theorem upload_fails_of_not_ok (env : Env) (emails : List EmailData)
    (name : String) (st : RunState) (hne : emails ≠ [])
    (hup : env.uploadOk = false) :
    (upload_emails_to_s3 env emails name st).1 = false := by
  unfold upload_emails_to_s3
  rw [if_neg hne, hup]
  simp

theorem metrics_preserves (env : Env) (count : Nat) (st : RunState) :
    (log_processing_metrics env count st).store = st.store ∧
    (log_processing_metrics env count st).s3objects = st.s3objects ∧
    (log_processing_metrics env count st).queriesIssued = st.queriesIssued ∧
    (log_processing_metrics env count st).uploadCalls = st.uploadCalls := by
  unfold log_processing_metrics
  split <;> exact ⟨rfl, rfl, rfl, rfl⟩

theorem filterMap_details_length (env : Env) : (l : List RawMsg) →
    (l.filterMap (get_email_details env)).length =
      (l.filter (fun m => m.getOk)).length
  | [] => rfl
  | m :: r => by
      cases hm : m.getOk <;>
        simp [get_email_details, hm, filterMap_details_length env r]

theorem filterMap_details_all (env : Env) : (l : List RawMsg) →
    (∀ m ∈ l, m.getOk = true) →
    l.filterMap (get_email_details env) = l.map (mkEmailData env)
  | [], _ => rfl
  | m :: r, h => by
      have hm : m.getOk = true := h m (by simp)
      have ih := filterMap_details_all env r (fun x hx => h x (by simp [hx]))
      simp [List.filterMap_cons, get_email_details, hm, ih]

theorem process_queriesIssued (env : Env) (st : RunState) :
    (process_domain_emails env st).2.queriesIssued =
      (fetch_emails_from_domain env st).2.queriesIssued := by
  unfold process_domain_emails
  dsimp only
  split
  · rfl
  · split
    · exact ((metrics_preserves env _ _).2.2.1).trans
        (upload_preserves env _ _ _).2.2
    · exact (upload_preserves env _ _ _).2.2

theorem process_empty_fetch (env : Env) (st : RunState)
    (h : (fetch_emails_from_domain env st).1 = []) :
    process_domain_emails env st =
      ({ status := "success", emailsProcessed := some 0,
         message := "No new emails to process" },
       (fetch_emails_from_domain env st).2) := by
  unfold process_domain_emails
  dsimp only
  rw [if_pos h]

theorem upload_result_of_ok (env : Env) (emails : List EmailData)
    (name : String) (st : RunState) (hne : emails ≠ [])
    (hup : env.uploadOk = true) :
    upload_emails_to_s3 env emails name st =
      (true,
       { store := st.store, metrics := st.metrics,
         s3objects := st.s3objects ++
           [{ key := "email-files/gmail-realtime/" ++ name ++ "_" ++
                env.nowStamp ++ ".json",
              emails := emails, emailCount := emails.length,
              batchName := name }],
         queriesIssued := st.queriesIssued,
         uploadCalls := st.uploadCalls + 1,
         s3PutCalls := st.s3PutCalls + 1 }) := by
  unfold upload_emails_to_s3
  rw [if_neg hne, hup]
  rfl

/-! ## Claim theorems -/

/-- Claim C2 counterexample: the claim that every payload tree with no
`text/plain` part at any depth yields the "no readable content" sentinel is
false on the code: a single-part root (no `'parts'` key) carrying inline body
data is decoded and returned without any content-type check, here a
`text/html` root whose data decodes to `"Hello"`. -/
theorem C2_counterexample :
    hasPlainPart (.single (some "text/html") (some "SGVsbG8")) = false ∧
    extract_body_content (.single (some "text/html") (some "SGVsbG8")) ≠
      noReadableContent := by
  decide

/-- Claim C2, amended: for every payload tree that contains no part whose
declared content type is `text/plain` at any depth AND whose root does not
itself carry truthy inline body data (the single-part branch decodes the
root's data with no mimeType check), `extract_body_content` returns the
"no readable content" sentinel — in particular it takes neither the decoded
nor the exception path, so it never raises. -/
theorem C2_no_plain_returns_sentinel (p : Payload)
    (h1 : hasPlainPart p = false) (h2 : rootInlineData p = false) :
    extract_body_content p = noReadableContent := by
  rw [extract_body_content, extractGo_noPlain p h1 h2]

/-- Witness for the amended Claim C2, at a multipart tree with a `text/html`
leaf and a nested multipart holding an `image/png` leaf. -/
theorem C2_witness :
    hasPlainPart (.multi (some "multipart/mixed") none
      [.single (some "text/html") (some "SGVsbG8"),
       .multi (some "multipart/alternative") none
         [.single (some "image/png") none]]) = false ∧
    rootInlineData (.multi (some "multipart/mixed") none
      [.single (some "text/html") (some "SGVsbG8"),
       .multi (some "multipart/alternative") none
         [.single (some "image/png") none]]) = false ∧
    extract_body_content (.multi (some "multipart/mixed") none
      [.single (some "text/html") (some "SGVsbG8"),
       .multi (some "multipart/alternative") none
         [.single (some "image/png") none]]) = noReadableContent :=
  ⟨by decide, by decide, C2_no_plain_returns_sentinel _ (by decide) (by decide)⟩

/-- Claim C3: for every payload tree whose part list reaches — past parts the
scan skips — a `text/plain` part carrying the padding-stripped base64url
encoding of some text (any valid-UTF-8 byte sequence), `extract_body_content`
returns exactly that original text: encode-then-decode is the identity after
padding restoration. -/
theorem C3_roundtrip_extract (pre post : List Payload) (mt bd : Option String)
    (bs : List Nat) (hbytes : ∀ b ∈ bs, b < 256)
    (hutf8 : isValidUtf8 bs = true)
    (hpre : ∀ p ∈ pre, skippedInScan p = true) :
    extract_body_content (.multi mt bd
      (pre ++ .single (some "text/plain") (some (b64urlEncode bs)) :: post)) =
      bs := by
  have hdec := decode_data_b64urlEncode bs hbytes hutf8
  have hlist : extractGoList
      (pre ++ .single (some "text/plain") (some (b64urlEncode bs)) :: post) =
      .ok (some bs) := by
    rw [extractGoList_append_skipped pre hpre]
    simp [extractGoList, mimeTypeOf, bodyDataOf, hdec]
  rw [extract_body_content]
  simp [extractGo, hlist]

/-- Witness for Claim C3: the spec's concrete scenario — a payload whose parts
are a `text/html` part and a `text/plain` part with data `"SGVsbG8"`
(the stripped base64url encoding of `"Hello"`) extracts to `"Hello"`. -/
theorem C3_witness :
    (∀ b ∈ helloBytes, b < 256) ∧ isValidUtf8 helloBytes = true ∧
    (∀ p ∈ [Payload.single (some "text/html") (some "PGI+SGk8L2I+")],
      skippedInScan p = true) ∧
    b64urlEncode helloBytes = "SGVsbG8" ∧
    extract_body_content (.multi (some "multipart/alternative") none
      ([Payload.single (some "text/html") (some "PGI+SGk8L2I+")] ++
        .single (some "text/plain") (some (b64urlEncode helloBytes)) :: [])) =
      helloBytes :=
  ⟨by decide, by decide, by decide, by decide,
   C3_roundtrip_extract [Payload.single (some "text/html") (some "PGI+SGk8L2I+")]
     [] (some "multipart/alternative") none helloBytes
     (by decide) (by decide) (by decide)⟩

/-- Claim C5: when the external store holds no previously processed message
(the `MAX(email_date)` query yields no value) but the query itself succeeds,
`get_last_processed_timestamp` returns `now - 7 days` formatted as
`YYYY/MM/DD`. -/
theorem C5_empty_store_fallback (now : Nat) (store : SnowStore)
    (h1 : store.available = true) (h2 : store.maxEmailDate = none) :
    get_last_processed_timestamp now store = some (fmtYMD (now - 7)) := by
  simp [get_last_processed_timestamp, h1, h2]

/-- Witness for Claim C5: on 2024-01-08 (day 19730) with an empty store the
watermark falls back to `"2024/01/01"`. -/
theorem C5_witness :
    ({ available := true, maxEmailDate := none } : SnowStore).available =
      true ∧
    ({ available := true, maxEmailDate := none } : SnowStore).maxEmailDate =
      none ∧
    get_last_processed_timestamp 19730
      { available := true, maxEmailDate := none } = some "2024/01/01" :=
  ⟨rfl, rfl, by
    rw [C5_empty_store_fallback 19730 { available := true, maxEmailDate := none }
      rfl rfl]
    decide⟩

/-- Claim C10: delivering an empty batch is a no-op success — for an empty
email list `upload_emails_to_s3` returns `True` without any `put_object`
attempt, and no S3 object is created. -/
theorem C10_empty_upload_noop (env : Env) (name : String) (st : RunState) :
    (upload_emails_to_s3 env [] name st).1 = true ∧
    (upload_emails_to_s3 env [] name st).2.s3objects = st.s3objects ∧
    (upload_emails_to_s3 env [] name st).2.s3PutCalls = st.s3PutCalls := by
  unfold upload_emails_to_s3
  simp

/-- Claim C1 counterexample: the claim that a failed watermark query makes
the run fail without issuing any source query is false on the code: with the
Snowflake store down, `get_last_processed_timestamp` returns `None` (caught
exception), `fetch_emails_from_domain` still issues the unbounded query
`from:example.com`, and the run returns status `"success"`. -/
theorem C1_counterexample :
    (freshState storeDown).store.available = false ∧
    get_last_processed_timestamp envNoNew.now (freshState storeDown).store =
      none ∧
    (process_domain_emails envNoNew (freshState storeDown)).2.queriesIssued =
      ["from:example.com"] ∧
    (process_domain_emails envNoNew (freshState storeDown)).1.status =
      "success" := by
  decide

/-- Claim C1, amended: when the watermark query cannot be executed,
`get_last_processed_timestamp` catches the error and returns `None`, and
`process_domain_emails` still issues exactly one source query — `from:domain`
with no `after:` lower bound — so the fetch proceeds over the entire mailbox
instead of failing the run. -/
theorem C1_watermark_failure_still_queries (env : Env) (st : RunState)
    (h : st.store.available = false) :
    get_last_processed_timestamp env.now st.store = none ∧
    (process_domain_emails env st).2.queriesIssued =
      st.queriesIssued ++ ["from:" ++ env.domain] := by
  have hget : get_last_processed_timestamp env.now st.store = none := by
    simp [get_last_processed_timestamp, h]
  refine ⟨hget, ?_⟩
  rw [process_queriesIssued, fetch_queriesIssued, hget]

/-- Witness for the amended Claim C1: the unavailable-store run issues the
unbounded query. -/
theorem C1_witness :
    (freshState storeDown).store.available = false ∧
    (get_last_processed_timestamp envNoNew.now (freshState storeDown).store =
      none ∧
     (process_domain_emails envNoNew (freshState storeDown)).2.queriesIssued =
       (freshState storeDown).queriesIssued ++ ["from:" ++ envNoNew.domain]) :=
  ⟨rfl, C1_watermark_failure_still_queries envNoNew (freshState storeDown) rfl⟩

/-- Claim C4: a Sink delivery failure never advances the Watermark — when
delivery of a non-empty batch fails, the run result has status `"error"`, no
metric rows are inserted, the Snowflake store is untouched, and the next
`get_last_processed_timestamp` call over the post-run store returns the
pre-run value. -/
theorem C4_delivery_failure_never_advances (env : Env) (st : RunState)
    (hfail : env.uploadOk = false)
    (hne : (fetch_emails_from_domain env st).1 ≠ []) :
    (process_domain_emails env st).1.status = "error" ∧
    (process_domain_emails env st).2.metrics = st.metrics ∧
    (process_domain_emails env st).2.store = st.store ∧
    get_last_processed_timestamp env.now
        (process_domain_emails env st).2.store =
      get_last_processed_timestamp env.now st.store := by
  have hup : (upload_emails_to_s3 env (fetch_emails_from_domain env st).1
      ("gmail_" ++ replaceDots env.domain)
      (fetch_emails_from_domain env st).2).1 = false :=
    upload_fails_of_not_ok env _ _ _ hne hfail
  have hres : process_domain_emails env st =
      ({ status := "error", emailsProcessed := none,
         message := "Failed to upload emails to S3" },
       (upload_emails_to_s3 env (fetch_emails_from_domain env st).1
         ("gmail_" ++ replaceDots env.domain)
         (fetch_emails_from_domain env st).2).2) := by
    unfold process_domain_emails
    dsimp only
    rw [if_neg hne, hup]
    simp
  have hmetrics : (process_domain_emails env st).2.metrics = st.metrics := by
    rw [hres]
    exact ((upload_preserves env _ _ _).2.1).trans (fetch_preserves env st).2.1
  have hstore : (process_domain_emails env st).2.store = st.store := by
    rw [hres]
    exact ((upload_preserves env _ _ _).1).trans (fetch_preserves env st).1
  exact ⟨by rw [hres], hmetrics, hstore, by rw [hstore]⟩

/-- Witness for Claim C4: a 3-message batch whose S3 upload fails yields an
error run with no metrics and an unchanged store. -/
theorem C4_witness :
    envDeliveryFails.uploadOk = false ∧
    (fetch_emails_from_domain envDeliveryFails (freshState storeJan1)).1 ≠
      [] ∧
    (fetch_emails_from_domain envDeliveryFails
      (freshState storeJan1)).1.length = 3 ∧
    ((process_domain_emails envDeliveryFails (freshState storeJan1)).1.status =
       "error" ∧
     (process_domain_emails envDeliveryFails (freshState storeJan1)).2.metrics =
       (freshState storeJan1).metrics ∧
     (process_domain_emails envDeliveryFails (freshState storeJan1)).2.store =
       (freshState storeJan1).store ∧
     get_last_processed_timestamp envDeliveryFails.now
         (process_domain_emails envDeliveryFails
           (freshState storeJan1)).2.store =
       get_last_processed_timestamp envDeliveryFails.now
         (freshState storeJan1).store) :=
  ⟨rfl, by decide, by decide,
   C4_delivery_failure_never_advances envDeliveryFails (freshState storeJan1)
     rfl (by decide)⟩

/-- Claim C6: a run whose source fetch returns an empty sequence reports
success with `emails_processed = 0` (distinct from an error) and performs no
Sink delivery call: `upload_emails_to_s3` is never invoked and no S3 object
is created. -/
theorem C6_empty_fetch_success_no_sink (env : Env) (st : RunState)
    (h : (fetch_emails_from_domain env st).1 = []) :
    (process_domain_emails env st).1 =
      { status := "success", emailsProcessed := some 0,
        message := "No new emails to process" } ∧
    (process_domain_emails env st).2.uploadCalls = st.uploadCalls ∧
    (process_domain_emails env st).2.s3objects = st.s3objects := by
  have hres := process_empty_fetch env st h
  refine ⟨by rw [hres], ?_, ?_⟩
  · rw [hres]
    exact (fetch_preserves env st).2.2.2.1
  · rw [hres]
    exact (fetch_preserves env st).2.2.1

/-- Witness for Claim C6: a healthy run over a mailbox with nothing new. -/
theorem C6_witness :
    (fetch_emails_from_domain envNoNew (freshState storeJan1)).1 = [] ∧
    ((process_domain_emails envNoNew (freshState storeJan1)).1 =
       { status := "success", emailsProcessed := some 0,
         message := "No new emails to process" } ∧
     (process_domain_emails envNoNew (freshState storeJan1)).2.uploadCalls =
       (freshState storeJan1).uploadCalls ∧
     (process_domain_emails envNoNew (freshState storeJan1)).2.s3objects =
       (freshState storeJan1).s3objects) :=
  ⟨by decide,
   C6_empty_fetch_success_no_sink envNoNew (freshState storeJan1) (by decide)⟩

/-- Claim C7: a fetched message whose content extraction fails is still
included in the batch with its body set to the "Content extraction failed"
sentinel rather than being dropped, and per-message extraction failures never
shrink the batch: its length equals the number of messages whose `get` call
succeeded, regardless of extraction outcomes. -/
theorem C7_extraction_failure_included (env : Env) (st : RunState)
    (msg : RawMsg) (hlist : env.listOk = true) (hmem : msg ∈ env.listResult)
    (hok : msg.getOk = true)
    (hfail : extract_body_content msg.payload = contentExtractionFailed) :
    (fetch_emails_from_domain env st).1.length =
      (env.listResult.filter (fun m => m.getOk)).length ∧
    mkEmailData env msg ∈ (fetch_emails_from_domain env st).1 ∧
    (mkEmailData env msg).body = contentExtractionFailed := by
  have hfetch : (fetch_emails_from_domain env st).1 =
      env.listResult.filterMap (get_email_details env) := by
    unfold fetch_emails_from_domain
    dsimp only
    rw [hlist]
    rfl
  refine ⟨?_, ?_, ?_⟩
  · rw [hfetch]
    exact filterMap_details_length env env.listResult
  · rw [hfetch]
    exact List.mem_filterMap.mpr ⟨msg, hmem, by simp [get_email_details, hok]⟩
  · simp [mkEmailData, hfail]

/-- Witness for Claim C7: the message whose only `text/plain` part carries
undecodable data is delivered with the sentinel body. -/
theorem C7_witness :
    envBadBody.listOk = true ∧
    msgBadBody ∈ envBadBody.listResult ∧
    msgBadBody.getOk = true ∧
    extract_body_content msgBadBody.payload = contentExtractionFailed ∧
    ((fetch_emails_from_domain envBadBody (freshState storeJan1)).1.length =
       (envBadBody.listResult.filter (fun m => m.getOk)).length ∧
     mkEmailData envBadBody msgBadBody ∈
       (fetch_emails_from_domain envBadBody (freshState storeJan1)).1 ∧
     (mkEmailData envBadBody msgBadBody).body = contentExtractionFailed) :=
  ⟨rfl, show msgBadBody ∈ [msgBadBody] from List.mem_singleton.mpr rfl, rfl,
   by decide,
   C7_extraction_failure_included envBadBody (freshState storeJan1) msgBadBody
     rfl (show msgBadBody ∈ [msgBadBody] from List.mem_singleton.mpr rfl) rfl
     (by decide)⟩

/-- Claim C8 counterexample: the claim that a failed source query reaches a
failed terminal state distinguishable from the empty case is false on the
code: with the Gmail `list` call raising over a 2-message mailbox, the run
reports `status = "success"` with `emails_processed = 0`, exactly as a
genuinely empty match set does. -/
theorem C8_counterexample :
    envListFails.listOk = false ∧
    envListFails.listResult ≠ [] ∧
    (process_domain_emails envListFails (freshState storeJan1)).1 =
      { status := "success", emailsProcessed := some 0,
        message := "No new emails to process" } := by
  refine ⟨rfl, ?_, by decide⟩
  show ¬([msgJan2, msgJan3] = [])
  simp

/-- Claim C8, amended: when the source fetch fails (authentication or API
error), `fetch_emails_from_domain` catches the exception and returns an empty
list, so the run reports the same success result with `emails_processed = 0`
as a genuinely empty match set — a failed source query is not distinguishable
from the empty case in the run result, and no Sink call is made. -/
theorem C8_fetch_failure_reports_success (env : Env) (st : RunState)
    (h : env.listOk = false) :
    (fetch_emails_from_domain env st).1 = [] ∧
    (process_domain_emails env st).1 =
      { status := "success", emailsProcessed := some 0,
        message := "No new emails to process" } ∧
    (process_domain_emails env st).2.uploadCalls = st.uploadCalls := by
  have hf : (fetch_emails_from_domain env st).1 = [] := by
    unfold fetch_emails_from_domain
    dsimp only
    rw [h]
    rfl
  have hres := process_empty_fetch env st hf
  refine ⟨hf, by rw [hres], ?_⟩
  rw [hres]
  exact (fetch_preserves env st).2.2.2.1

/-- Witness for the amended Claim C8. -/
theorem C8_witness :
    envListFails.listOk = false ∧
    ((fetch_emails_from_domain envListFails (freshState storeJan1)).1 = [] ∧
     (process_domain_emails envListFails (freshState storeJan1)).1 =
       { status := "success", emailsProcessed := some 0,
         message := "No new emails to process" } ∧
     (process_domain_emails envListFails (freshState storeJan1)).2.uploadCalls =
       (freshState storeJan1).uploadCalls) :=
  ⟨rfl, C8_fetch_failure_reports_success envListFails (freshState storeJan1)
    rfl⟩

/-- Claim C9: messages within a batch preserve the source-returned order with
no reordering — the batch is exactly the image, in order, of the source list;
the Sink receives exactly one deliver call, whose S3 object holds exactly
that batch; and on Sink success the reported result is `status = "success"`
with `emails_processed` equal to the batch size. -/
theorem C9_order_preserved_single_delivery (env : Env) (st : RunState)
    (hlist : env.listOk = true) (hall : ∀ m ∈ env.listResult, m.getOk = true)
    (hup : env.uploadOk = true) (hne : env.listResult ≠ []) :
    (fetch_emails_from_domain env st).1 =
      env.listResult.map (mkEmailData env) ∧
    (process_domain_emails env st).1 =
      { status := "success", emailsProcessed := some env.listResult.length,
        message := "Successfully uploaded " ++
          toString env.listResult.length ++ " emails to S3" } ∧
    (process_domain_emails env st).2.uploadCalls = st.uploadCalls + 1 ∧
    (process_domain_emails env st).2.s3objects = st.s3objects ++
      [{ key := "email-files/gmail-realtime/" ++
           ("gmail_" ++ replaceDots env.domain) ++ "_" ++ env.nowStamp ++
           ".json",
         emails := env.listResult.map (mkEmailData env),
         emailCount := env.listResult.length,
         batchName := "gmail_" ++ replaceDots env.domain }] := by
  have hfetch : (fetch_emails_from_domain env st).1 =
      env.listResult.map (mkEmailData env) := by
    unfold fetch_emails_from_domain
    dsimp only
    rw [hlist]
    exact filterMap_details_all env env.listResult hall
  have hfne : (fetch_emails_from_domain env st).1 ≠ [] := by
    rw [hfetch]
    exact fun hc => hne (List.map_eq_nil_iff.mp hc)
  have hpair := upload_result_of_ok env (fetch_emails_from_domain env st).1
    ("gmail_" ++ replaceDots env.domain) (fetch_emails_from_domain env st).2
    hfne hup
  have hres : process_domain_emails env st =
      ({ status := "success",
         emailsProcessed := some (fetch_emails_from_domain env st).1.length,
         message := "Successfully uploaded " ++
           toString (fetch_emails_from_domain env st).1.length ++
           " emails to S3" },
       log_processing_metrics env (fetch_emails_from_domain env st).1.length
         (upload_emails_to_s3 env (fetch_emails_from_domain env st).1
           ("gmail_" ++ replaceDots env.domain)
           (fetch_emails_from_domain env st).2).2) := by
    unfold process_domain_emails
    dsimp only
    rw [if_neg hfne, hpair]
    simp
  have hlen : (fetch_emails_from_domain env st).1.length =
      env.listResult.length := by
    rw [hfetch, List.length_map]
  refine ⟨hfetch, ?_, ?_, ?_⟩
  · rw [hres, hlen]
  · rw [hres]
    refine ((metrics_preserves env _ _).2.2.2).trans ?_
    rw [hpair]
    exact congrArg (· + 1) (fetch_preserves env st).2.2.2.1
  · rw [hres]
    refine ((metrics_preserves env _ _).2.1).trans ?_
    rw [hpair]
    dsimp only
    rw [(fetch_preserves env st).2.2.1, hfetch, List.length_map]

/-- Witness for Claim C9: the spec's concrete scenario — watermark 2024/01/01,
two messages dated 2024-01-02 and 2024-01-03, delivered in order in a single
upload, reported as success with `emails_processed = 2`. -/
theorem C9_witness :
    envTwoMsgs.listOk = true ∧
    (∀ m ∈ envTwoMsgs.listResult, m.getOk = true) ∧
    envTwoMsgs.uploadOk = true ∧
    envTwoMsgs.listResult ≠ [] ∧
    envTwoMsgs.listResult.length = 2 ∧
    ((fetch_emails_from_domain envTwoMsgs (freshState storeJan1)).1 =
       envTwoMsgs.listResult.map (mkEmailData envTwoMsgs) ∧
     (process_domain_emails envTwoMsgs (freshState storeJan1)).1 =
       { status := "success",
         emailsProcessed := some envTwoMsgs.listResult.length,
         message := "Successfully uploaded " ++
           toString envTwoMsgs.listResult.length ++ " emails to S3" } ∧
     (process_domain_emails envTwoMsgs (freshState storeJan1)).2.uploadCalls =
       (freshState storeJan1).uploadCalls + 1 ∧
     (process_domain_emails envTwoMsgs (freshState storeJan1)).2.s3objects =
       (freshState storeJan1).s3objects ++
         [{ key := "email-files/gmail-realtime/" ++
              ("gmail_" ++ replaceDots envTwoMsgs.domain) ++ "_" ++
              envTwoMsgs.nowStamp ++ ".json",
            emails := envTwoMsgs.listResult.map (mkEmailData envTwoMsgs),
            emailCount := envTwoMsgs.listResult.length,
            batchName := "gmail_" ++ replaceDots envTwoMsgs.domain }]) :=
  ⟨rfl, by decide, rfl,
   show ¬([msgJan2, msgJan3] = []) by simp, rfl,
   C9_order_preserved_single_delivery envTwoMsgs (freshState storeJan1) rfl
     (by decide) rfl (show ¬([msgJan2, msgJan3] = []) by simp)⟩

end GmailConnector
